import Mathlib

/-!
Verification of the ride-prediction core of `ml_uber_project`.

The definitions below are a shallow embedding of
`scripts/advanced_ride_predictor.py` (and of the identical
`haversine_distance` in `scripts/predict_ride_details.py`).
Python floats are modelled by real numbers, Python ints by integers,
and the two opaque scikit-learn regressors by arbitrary functions from
the feature vector to a real.  The `try/except` around tuple unpacking
in `predict_ride_details_advanced` is modelled by an explicit value
layer (`PyVal`, `CoordArg`, `PyErr`): a call either returns a normal
value (`Except.ok`), or raises an uncaught exception (`Except.error`),
and the normal value is itself either the error dictionary or a
prediction record, exactly as in the source.
-/

open Classical

/-- `math.radians` : degrees to radians. -/
noncomputable def radians (x : ℝ) : ℝ := x * Real.pi / 180

/-- `math.atan2 y x`, the two-argument arctangent. -/
noncomputable def atan2 (y x : ℝ) : ℝ :=
  if 0 < x then Real.arctan (y / x)
  else if x < 0 then
    (if 0 ≤ y then Real.arctan (y / x) + Real.pi else Real.arctan (y / x) - Real.pi)
  else if 0 < y then Real.pi / 2
  else if y < 0 then -(Real.pi / 2)
  else 0

/-- The intermediate quantity `a` of the haversine formula
(`advanced_ride_predictor.py` line 24). -/
noncomputable def haversineA (lat1 lon1 lat2 lon2 : ℝ) : ℝ :=
  Real.sin ((radians lat2 - radians lat1) / 2) ^ 2 +
    Real.cos (radians lat1) * Real.cos (radians lat2) *
      Real.sin ((radians lon2 - radians lon1) / 2) ^ 2

/-- `haversine_distance` (lines 12-27 of `advanced_ride_predictor.py`,
identical to lines 9-28 of `predict_ride_details.py`): Earth radius
6371 km, `c = 2*atan2(sqrt(a), sqrt(1-a))`, `distance = R*c`. -/
noncomputable def haversine_distance (lat1 lon1 lat2 lon2 : ℝ) : ℝ :=
  6371 * (2 * atan2 (Real.sqrt (haversineA lat1 lon1 lat2 lon2))
    (Real.sqrt (1 - haversineA lat1 lon1 lat2 lon2)))

/-- `SURGE_ZONE_CENTERS` (lines 115-119): `(center_lat, center_lon, multiplier)`. -/
noncomputable def SURGE_ZONE_CENTERS : List (ℝ × ℝ × ℝ) :=
  [(23.78, 90.41, 1.5), (23.75, 90.38, 1.3), (23.72, 90.40, 1.8)]

/-- `SURGE_RADIUS_KM` (line 120). -/
noncomputable def SURGE_RADIUS_KM : ℝ := 2.0

/-- The `for` loop of `get_surge_multiplier` (lines 126-130). -/
noncomputable def surgeLoop (plat plon : ℝ) : List (ℝ × ℝ × ℝ) → ℝ
  | [] => 1.0
  | (clat, clon, m) :: rest =>
      if haversine_distance plat plon clat clon ≤ SURGE_RADIUS_KM then m
      else surgeLoop plat plon rest

/-- `get_surge_multiplier` (lines 122-130). -/
noncomputable def get_surge_multiplier (pickup_lat pickup_lon : ℝ) : ℝ :=
  surgeLoop pickup_lat pickup_lon SURGE_ZONE_CENTERS

/-- `get_prediction_confidence` (lines 133-161).  Sequential deductions
from a starting score of 3, clamped below at 1, then mapped to a label.
The rain flag is the Python int whose truthiness (`≠ 0`) is tested. -/
noncomputable def get_prediction_confidence
    (distance_km : ℝ) (time_of_day_hour is_rainy ride_category : ℤ) : String :=
  let s0 : ℤ := 3
  let s1 := if 30 < distance_km then s0 - 1 else s0
  let s2 := if (7 ≤ time_of_day_hour ∧ time_of_day_hour ≤ 9) ∨
               (17 ≤ time_of_day_hour ∧ time_of_day_hour ≤ 19) then s1 - 1 else s1
  let s3 := if is_rainy ≠ 0 then s2 - 1 else s2
  let s4 := if ride_category = 3 ∨ ride_category = 4 then s3 - 1 else s3
  let s5 := max 1 s4
  if s5 = 3 then "High" else if s5 = 2 then "Medium" else "Low"

/-- ASCII lower-casing of one character, as `str.lower` acts on the
location names appearing in this program. -/
def lowerChar (c : Char) : Char :=
  if 'A' ≤ c ∧ c ≤ 'Z' then Char.ofNat (c.toNat + 32) else c

/-- `pickup_location_name.lower()` as a character list. -/
def lowerStr (s : String) : List Char := s.data.map lowerChar

/-- Whether `needle` occurs at the head of `hay`. -/
def startsWithChars : List Char → List Char → Bool
  | [], _ => true
  | _ :: _, [] => false
  | a :: as, b :: bs => a == b && startsWithChars as bs

/-- Python's `needle in hay` substring containment. -/
def containsSub (needle : List Char) : List Char → Bool
  | [] => startsWithChars needle []
  | c :: rest => startsWithChars needle (c :: rest) || containsSub needle rest

/-- `get_recommended_destination` (lines 163-171). -/
def get_recommended_destination (pickup_location_name : String) : Option String :=
  let n := lowerStr pickup_location_name
  if containsSub "gulshan".data n then some "Bashundhara R/A"
  else if containsSub "dhanmondi".data n then some "Motijheel"
  else if containsSub "mirpur".data n then some "Uttara"
  else none

/-- One row of the synthetic dataset (line 81 and the DataFrame columns
of line 83). -/
structure TripSample where
  distance_km : ℝ
  time_of_day_hour : ℤ
  day_of_week : ℤ
  is_rainy : ℤ
  ride_category : ℤ
  fare_bdt : ℝ
  eta_minutes : ℝ

/-- The per-category constants of the `if/elif/else` chain of
`generate_synthetic_data` (lines 41-65), as
`(base_fare_bdt, cost_per_km_bdt, eta_multiplier, max_distance)`.
As in the source, every category other than 0-3 takes the
Auto Riksha branch. -/
noncomputable def categoryConstants (ride_category : ℤ) : ℝ × ℝ × ℝ × ℝ :=
  if ride_category = 0 then (50, 25, 1.0, 30)
  else if ride_category = 1 then (100, 40, 0.8, 50)
  else if ride_category = 2 then (30, 15, 0.7, 40)
  else if ride_category = 3 then (20, 10, 1.5, 10)
  else (35, 18, 1.2, 20)

/-- One iteration of the sampling loop of `generate_synthetic_data`
(lines 33-81), parametrised by the seven random draws of that
iteration: `distance_km ~ uniform(1,50)`, `hour ~ randint(0,23)`,
`day ~ randint(0,6)`, `is_rainy ~ choice([0,1])`,
`ride_category ~ randint(0,4)`, `noise_fare ~ uniform(-25,25)`,
`noise_eta ~ uniform(-5,5)`. -/
noncomputable def generateSample (distance_draw : ℝ)
    (time_of_day_hour day_of_week is_rainy ride_category : ℤ)
    (noise_fare noise_eta : ℝ) : TripSample :=
  let consts := categoryConstants ride_category
  let base_fare_bdt := consts.1
  let cost_per_km_bdt := consts.2.1
  let eta_multiplier := consts.2.2.1
  let max_distance := consts.2.2.2
  let current_distance_km := min distance_draw max_distance
  let fare_linear_base := current_distance_km * cost_per_km_bdt + base_fare_bdt
  let eta_linear_base := current_distance_km * 2 * eta_multiplier
  let fare0 := fare_linear_base + (time_of_day_hour : ℝ) * 3 + (day_of_week : ℝ) * 5 +
    (is_rainy : ℝ) * 70
  let eta0 := eta_linear_base + (time_of_day_hour : ℝ) * 0.5 + (day_of_week : ℝ) * 1 +
    (is_rainy : ℝ) * 10
  let fare := max base_fare_bdt (fare0 + noise_fare)
  let eta := max 5 (eta0 + noise_eta)
  ⟨current_distance_km, time_of_day_hour, day_of_week, is_rainy, ride_category, fare, eta⟩

/-- An opaque trained regressor: feature vector
`(distance_km, hour, day, is_rainy, ride_category)` to a scalar. -/
def Model : Type := ℝ → ℤ → ℤ → ℤ → ℤ → ℝ

/-- `get_trained_models` (lines 174-185): the two module-level globals
`_fare_model`/`_eta_model` are passed and returned explicitly; `fresh`
stands for the pair that `train_models()` would produce.  If either
slot is `none`, both are (re)trained; the returned state is the state
after the call. -/
def get_trained_models (fresh : Model × Model) (st : Option Model × Option Model) :
    (Model × Model) × (Option Model × Option Model) :=
  match st with
  | (some f, some e) => ((f, e), (some f, some e))
  | _ => (fresh, (some fresh.1, some fresh.2))

/-- A Python value that can appear as a component of a coordinate
argument. -/
inductive PyVal where
  | num (x : ℝ)
  | str (s : String)
  | pyNone

/-- A Python value passed as a whole coordinate argument. -/
inductive CoordArg where
  | tup (xs : List PyVal)
  | strArg (s : String)
  | numArg (x : ℝ)
  | noneArg

/-- The two exception classes named in the `except` clause of
`predict_ride_details_advanced` (line 193); `typeError` also models the
`TypeError` that `math.radians` raises outside that clause. -/
inductive PyErr where
  | typeError
  | valueError
deriving DecidableEq

/-- Tuple unpacking `lat, lon = coords` (lines 191-192): non-iterables
raise `TypeError`; iterables of length other than two raise
`ValueError`; a two-character string unpacks into two one-character
strings. -/
def unpack2 : CoordArg → Except PyErr (PyVal × PyVal)
  | .tup [a, b] => .ok (a, b)
  | .tup _ => .error .valueError
  | .strArg s =>
      match s.data with
      | [c1, c2] => .ok (.str (String.mk [c1]), .str (String.mk [c2]))
      | _ => .error .valueError
  | .numArg _ => .error .typeError
  | .noneArg => .error .typeError

/-- `math.radians` applied to an unpacked component: a `TypeError` on
anything that is not a number. -/
def asReal : PyVal → Except PyErr ℝ
  | .num x => .ok x
  | .str _ => .error .typeError
  | .pyNone => .error .typeError

/-- The illustrative feature-impact block (lines 249-254). -/
structure FeatureImpacts where
  distance : ℤ
  time_of_day : ℤ
  demand_level : ℤ
  location_situation : ℤ

/-- The normal return dictionary of `predict_ride_details_advanced`
(lines 257-265), with the numeric values kept unformatted (string
formatting of `fare`, `eta` and `distance_km` is the out-of-scope
serialisation layer). -/
structure AdvOut where
  fare : ℝ
  eta : ℝ
  distance_km : ℝ
  surge_applied : Prop
  prediction_confidence : String
  recommended_destination : Option String
  feature_impacts : FeatureImpacts

/-- A normal (non-raising) result of the entry point: either the
`{"error": ...}` dictionary or a prediction record. -/
inductive AdvResult where
  | errorDict (msg : String)
  | ok (r : AdvOut)

/-- The error message of line 194. -/
def errMsgInvalidCoords : String :=
  "Invalid coordinates format. Expected (latitude, longitude)."

/-- The body of `predict_ride_details_advanced` after coordinates have
been unpacked into four numbers (lines 196-265). -/
noncomputable def predictBody (models : Model × Model)
    (pickup_lat pickup_lon dest_lat dest_lon : ℝ)
    (time_of_day_hour day_of_week is_rainy ride_category : ℤ)
    (pickup_location_name : String) : AdvOut :=
  let distance_raw := haversine_distance pickup_lat pickup_lon dest_lat dest_lon
  let max_distance : ℝ :=
    if ride_category = 0 then 30 else if ride_category = 1 then 50
    else if ride_category = 2 then 40 else if ride_category = 3 then 10
    else if ride_category = 4 then 20 else 50
  let distance_km := min distance_raw max_distance
  let predicted_fare := models.1 distance_km time_of_day_hour day_of_week is_rainy ride_category
  let predicted_eta := models.2 distance_km time_of_day_hour day_of_week is_rainy ride_category
  let surge_multiplier := get_surge_multiplier pickup_lat pickup_lon
  let fare := predicted_fare * surge_multiplier
  let surge_applied : Prop := 1.0 < surge_multiplier
  let conf := get_prediction_confidence distance_km time_of_day_hour is_rainy ride_category
  let recdest := get_recommended_destination pickup_location_name
  let time_impact : ℤ :=
    if (7 ≤ time_of_day_hour ∧ time_of_day_hour ≤ 9) ∨
       (17 ≤ time_of_day_hour ∧ time_of_day_hour ≤ 19) then 25
    else if (10 ≤ time_of_day_hour ∧ time_of_day_hour ≤ 11) ∨
            (12 ≤ time_of_day_hour ∧ time_of_day_hour ≤ 16) ∨
            (20 ≤ time_of_day_hour ∧ time_of_day_hour ≤ 21) then 15
    else 5
  let demand0 : ℤ := 5
  let demand1 := if is_rainy ≠ 0 then demand0 + 10 else demand0
  let demand2 := if surge_applied then demand1 + 15 else demand1
  let demand_impact := min demand2 40
  let locsit0 : ℤ := 5
  let locsit1 := if is_rainy ≠ 0 then locsit0 + 10 else locsit0
  let locsit2 := if surge_applied then locsit1 + 15 else locsit1
  let locsit_impact := min locsit2 40
  ⟨fare, predicted_eta, distance_km, surge_applied, conf, recdest,
    ⟨38, time_impact, demand_impact, locsit_impact⟩⟩

/-- `predict_ride_details_advanced` (lines 187-265) with the
module-level model cache passed and returned explicitly.  The models
are fetched first (line 188), then the coordinates are unpacked inside
`try/except` (lines 190-194); a `TypeError` raised later by
`math.radians` on a non-numeric component (line 196) is outside that
clause and therefore escapes as `Except.error`. -/
noncomputable def predict_ride_details_advanced (fresh : Model × Model)
    (st : Option Model × Option Model)
    (pickup_coords destination_coords : CoordArg)
    (time_of_day_hour day_of_week is_rainy ride_category : ℤ)
    (pickup_location_name : String) :
    Except PyErr AdvResult × (Option Model × Option Model) :=
  let fetched := get_trained_models fresh st
  let models := fetched.1
  let st' := fetched.2
  match unpack2 pickup_coords, unpack2 destination_coords with
  | .error _, _ => (.ok (.errorDict errMsgInvalidCoords), st')
  | .ok _, .error _ => (.ok (.errorDict errMsgInvalidCoords), st')
  | .ok (p1, p2), .ok (d1, d2) =>
    match asReal p1, asReal p2, asReal d1, asReal d2 with
    | .ok plat, .ok plon, .ok dlat, .ok dlon =>
        (.ok (.ok (predictBody models plat plon dlat dlon time_of_day_hour day_of_week
          is_rainy ride_category pickup_location_name)), st')
    | .error e, _, _, _ => (.error e, st')
    | .ok _, .error e, _, _ => (.error e, st')
    | .ok _, .ok _, .error e, _ => (.error e, st')
    | .ok _, .ok _, .ok _, .error e => (.error e, st')

/-! ### General facts about the embedded haversine formula -/

lemma atan2_nonneg {y x : ℝ} (hy : 0 ≤ y) (hx : 0 ≤ x) : 0 ≤ atan2 y x := by
  rcases lt_or_eq_of_le hx with hx' | hx'
  · unfold atan2
    rw [if_pos hx']
    have h := Real.arctan_strictMono.monotone (div_nonneg hy (le_of_lt hx'))
    simpa [Real.arctan_zero] using h
  · subst hx'
    unfold atan2
    rw [if_neg (lt_irrefl 0), if_neg (lt_irrefl 0)]
    rcases lt_or_eq_of_le hy with hy' | hy'
    · rw [if_pos hy']
      linarith [Real.pi_pos]
    · subst hy'
      rw [if_neg (lt_irrefl 0), if_neg (lt_irrefl 0)]

lemma atan2_sqrt_eq_arcsin {a : ℝ} (h0 : 0 ≤ a) (h1 : a < 1) :
    atan2 (Real.sqrt a) (Real.sqrt (1 - a)) = Real.arcsin (Real.sqrt a) := by
  have hx : 0 < Real.sqrt (1 - a) := Real.sqrt_pos.mpr (by linarith)
  have hlt : Real.sqrt a < 1 := by
    rw [Real.sqrt_lt' one_pos]
    nlinarith
  have hmem : Real.sqrt a ∈ Set.Ioo (-(1 : ℝ)) 1 :=
    ⟨by nlinarith [Real.sqrt_nonneg a], hlt⟩
  have harc := Real.arcsin_eq_arctan hmem
  rw [Real.sq_sqrt h0] at harc
  unfold atan2
  rw [if_pos hx, harc]

lemma haversineA_nonneg (lat1 lon1 lat2 lon2 : ℝ)
    (hc : 0 ≤ Real.cos (radians lat1) * Real.cos (radians lat2)) :
    0 ≤ haversineA lat1 lon1 lat2 lon2 :=
  add_nonneg (sq_nonneg _) (mul_nonneg hc (sq_nonneg _))

lemma haversineA_le_quarter_sq (lat1 lon1 lat2 lon2 : ℝ) :
    haversineA lat1 lon1 lat2 lon2 ≤
      ((radians lat2 - radians lat1) / 2) ^ 2 + ((radians lon2 - radians lon1) / 2) ^ 2 := by
  have h1 : Real.sin ((radians lat2 - radians lat1) / 2) ^ 2 ≤
      ((radians lat2 - radians lat1) / 2) ^ 2 := Real.sin_sq_le_sq
  have h4 : Real.sin ((radians lon2 - radians lon1) / 2) ^ 2 ≤
      ((radians lon2 - radians lon1) / 2) ^ 2 := Real.sin_sq_le_sq
  have hc1 := Real.cos_le_one (radians lat1)
  have hc1' := Real.neg_one_le_cos (radians lat1)
  have hc2 := Real.cos_le_one (radians lat2)
  have hc2' := Real.neg_one_le_cos (radians lat2)
  have hcc : Real.cos (radians lat1) * Real.cos (radians lat2) ≤ 1 := by nlinarith
  have h3 : Real.cos (radians lat1) * Real.cos (radians lat2) *
      Real.sin ((radians lon2 - radians lon1) / 2) ^ 2 ≤
      Real.sin ((radians lon2 - radians lon1) / 2) ^ 2 := by
    nlinarith [sq_nonneg (Real.sin ((radians lon2 - radians lon1) / 2))]
  unfold haversineA
  linarith

lemma haversine_eq_arcsin (lat1 lon1 lat2 lon2 : ℝ)
    (h0 : 0 ≤ haversineA lat1 lon1 lat2 lon2) (h1 : haversineA lat1 lon1 lat2 lon2 < 1) :
    haversine_distance lat1 lon1 lat2 lon2 =
      12742 * Real.arcsin (Real.sqrt (haversineA lat1 lon1 lat2 lon2)) := by
  unfold haversine_distance
  rw [atan2_sqrt_eq_arcsin h0 h1]
  ring

lemma le_arcsin {x : ℝ} (h0 : 0 ≤ x) (h1 : x ≤ 1) : x ≤ Real.arcsin x :=
  calc x = Real.sin (Real.arcsin x) := (Real.sin_arcsin (by linarith) h1).symm
    _ ≤ Real.arcsin x := Real.sin_le (Real.arcsin_nonneg.mpr h0)

lemma two_mul_arcsin_le {x : ℝ} (h0 : 0 ≤ x) (h1 : x ≤ 1) :
    2 * Real.arcsin x ≤ Real.pi * x := by
  have hy0 : 0 ≤ Real.arcsin x := Real.arcsin_nonneg.mpr h0
  have hy2 : Real.arcsin x ≤ Real.pi / 2 := Real.arcsin_le_pi_div_two x
  have hs := Real.mul_le_sin hy0 hy2
  rw [Real.sin_arcsin (by linarith) h1] at hs
  have hπ := Real.pi_pos
  rw [div_mul_eq_mul_div, div_le_iff₀ hπ] at hs
  linarith

lemma haversine_lower (lat1 lon1 lat2 lon2 : ℝ)
    (hc : 0 ≤ Real.cos (radians lat1) * Real.cos (radians lat2))
    (h1 : haversineA lat1 lon1 lat2 lon2 < 1) :
    12742 * |Real.sin ((radians lat2 - radians lat1) / 2)| ≤
      haversine_distance lat1 lon1 lat2 lon2 := by
  have h0 := haversineA_nonneg lat1 lon1 lat2 lon2 hc
  have key : |Real.sin ((radians lat2 - radians lat1) / 2)| ≤
      Real.sqrt (haversineA lat1 lon1 lat2 lon2) := by
    rw [← Real.sqrt_sq_eq_abs]
    exact Real.sqrt_le_sqrt (le_add_of_nonneg_right (mul_nonneg hc (sq_nonneg _)))
  have hs1 : Real.sqrt (haversineA lat1 lon1 lat2 lon2) ≤ 1 := by
    rw [← Real.sqrt_one]
    exact Real.sqrt_le_sqrt (le_of_lt h1)
  have harc := le_arcsin (Real.sqrt_nonneg (haversineA lat1 lon1 lat2 lon2)) hs1
  rw [haversine_eq_arcsin lat1 lon1 lat2 lon2 h0 h1]
  linarith

lemma haversine_upper (lat1 lon1 lat2 lon2 : ℝ)
    (hc : 0 ≤ Real.cos (radians lat1) * Real.cos (radians lat2))
    (hq : ((radians lat2 - radians lat1) / 2) ^ 2 + ((radians lon2 - radians lon1) / 2) ^ 2
      ≤ 9 / 16) :
    haversine_distance lat1 lon1 lat2 lon2 ≤ 6371 * Real.pi *
      Real.sqrt (((radians lat2 - radians lat1) / 2) ^ 2 +
        ((radians lon2 - radians lon1) / 2) ^ 2) := by
  have h0 := haversineA_nonneg lat1 lon1 lat2 lon2 hc
  have haq := haversineA_le_quarter_sq lat1 lon1 lat2 lon2
  have h1 : haversineA lat1 lon1 lat2 lon2 < 1 := by linarith
  have hs1 : Real.sqrt (haversineA lat1 lon1 lat2 lon2) ≤ 1 := by
    rw [← Real.sqrt_one]
    exact Real.sqrt_le_sqrt (le_of_lt h1)
  have h2 := two_mul_arcsin_le (Real.sqrt_nonneg (haversineA lat1 lon1 lat2 lon2)) hs1
  have h3 : Real.sqrt (haversineA lat1 lon1 lat2 lon2) ≤
      Real.sqrt (((radians lat2 - radians lat1) / 2) ^ 2 +
        ((radians lon2 - radians lon1) / 2) ^ 2) := Real.sqrt_le_sqrt haq
  rw [haversine_eq_arcsin lat1 lon1 lat2 lon2 h0 h1]
  have hπ := Real.pi_pos
  nlinarith [h2, h3]

lemma haversine_self (lat lon : ℝ) : haversine_distance lat lon lat lon = 0 := by
  have hA : haversineA lat lon lat lon = 0 := by
    unfold haversineA
    simp
  unfold haversine_distance
  rw [hA]
  have h1 : (1 : ℝ) - 0 = 1 := by norm_num
  rw [Real.sqrt_zero, h1, Real.sqrt_one]
  have h2 : atan2 0 1 = 0 := by
    unfold atan2
    rw [if_pos one_pos]
    simp [Real.arctan_zero]
  rw [h2]
  ring

lemma haversine_comm (lat1 lon1 lat2 lon2 : ℝ) :
    haversine_distance lat1 lon1 lat2 lon2 = haversine_distance lat2 lon2 lat1 lon1 := by
  have hA : haversineA lat1 lon1 lat2 lon2 = haversineA lat2 lon2 lat1 lon1 := by
    unfold haversineA
    have e1 : (radians lat1 - radians lat2) / 2 = -((radians lat2 - radians lat1) / 2) := by
      ring
    have e2 : (radians lon1 - radians lon2) / 2 = -((radians lon2 - radians lon1) / 2) := by
      ring
    rw [e1, e2, Real.sin_neg, Real.sin_neg]
    ring
  unfold haversine_distance
  rw [hA]

lemma haversine_nonneg (lat1 lon1 lat2 lon2 : ℝ) :
    0 ≤ haversine_distance lat1 lon1 lat2 lon2 := by
  unfold haversine_distance
  have h := atan2_nonneg (Real.sqrt_nonneg (haversineA lat1 lon1 lat2 lon2))
    (Real.sqrt_nonneg (1 - haversineA lat1 lon1 lat2 lon2))
  linarith

/-- C8: for every coordinate pair `P`, `haversine_distance P P = 0`; the
function is symmetric in its two coordinate pairs; and its output is
always non-negative. -/
theorem haversine_zero_symm_nonneg :
    (∀ lat lon : ℝ, haversine_distance lat lon lat lon = 0) ∧
    (∀ lat1 lon1 lat2 lon2 : ℝ,
      haversine_distance lat1 lon1 lat2 lon2 = haversine_distance lat2 lon2 lat1 lon1) ∧
    (∀ lat1 lon1 lat2 lon2 : ℝ, 0 ≤ haversine_distance lat1 lon1 lat2 lon2) :=
  ⟨haversine_self, haversine_comm, haversine_nonneg⟩

/-! ### Confidence estimator: reference form and monotonicity -/

/-- The number of triggered penalty conditions, following the spec's
wording for §4.5 (one point for each of: long distance, rush hour,
rain, Riksha or Auto Riksha). -/
noncomputable def penaltyCount (distance_km : ℝ) (hour is_rainy ride_category : ℤ) : ℤ :=
  (if 30 < distance_km then 1 else 0) +
  (if (7 ≤ hour ∧ hour ≤ 9) ∨ (17 ≤ hour ∧ hour ≤ 19) then 1 else 0) +
  (if is_rainy ≠ 0 then 1 else 0) +
  (if ride_category = 3 ∨ ride_category = 4 then 1 else 0)

/-- The score-to-label map `{3 → High, 2 → Medium, 1 or less → Low}`. -/
def scoreLabel (s : ℤ) : String :=
  if s = 3 then "High" else if s = 2 then "Medium" else "Low"

/-- Reference definition following the spec's words (§4.5): start at 3,
subtract all triggered penalties at once, clamp below at 1, map to a
label.  To be compared with the source's `get_prediction_confidence`. -/
noncomputable def confidence_reference (distance_km : ℝ) (hour is_rainy ride_category : ℤ) :
    String :=
  scoreLabel (max 1 (3 - penaltyCount distance_km hour is_rainy ride_category))

lemma confidence_eq_reference (d : ℝ) (h r c : ℤ) :
    get_prediction_confidence d h r c = confidence_reference d h r c := by
  unfold get_prediction_confidence confidence_reference penaltyCount scoreLabel
  by_cases h1 : 30 < d <;>
    by_cases h2 : (7 ≤ h ∧ h ≤ 9) ∨ (17 ≤ h ∧ h ≤ 19) <;>
    by_cases h3 : r = 0 <;>
    by_cases h4 : c = 3 ∨ c = 4 <;>
    simp only [h1, h2, h3, h4, if_true, if_false, ite_true, ite_false, ne_eq,
      not_false_eq_true, not_true_eq_false] <;>
    norm_num

/-- The `Low < Medium < High` ordering, as a rank. -/
def confidenceRank (s : String) : ℕ :=
  if s = "High" then 3 else if s = "Medium" then 2 else 1

lemma rank_scoreLabel (s : ℤ) (h1 : 1 ≤ s) (h3 : s ≤ 3) :
    (confidenceRank (scoreLabel s) : ℤ) = s := by
  interval_cases s <;> decide

/-- C3: for every input, `get_prediction_confidence` equals the spec's
reference definition (score 3 minus one per triggered penalty, clamped
at 1, mapped 3→High, 2→Medium, ≤1→Low), and the output is always one of
Low, Medium, High. -/
theorem confidence_matches_reference :
    ∀ (d : ℝ) (h r c : ℤ),
      get_prediction_confidence d h r c = confidence_reference d h r c ∧
      (get_prediction_confidence d h r c = "Low" ∨
       get_prediction_confidence d h r c = "Medium" ∨
       get_prediction_confidence d h r c = "High") := by
  intro d h r c
  refine ⟨confidence_eq_reference d h r c, ?_⟩
  rw [confidence_eq_reference d h r c]
  unfold confidence_reference scoreLabel
  split_ifs <;> simp

lemma penaltyCount_nonneg (d : ℝ) (h r c : ℤ) : 0 ≤ penaltyCount d h r c := by
  unfold penaltyCount
  split_ifs <;> norm_num

lemma ite_one_zero_mono {P Q : Prop} [Decidable P] [Decidable Q] (h : P → Q) :
    (if P then (1 : ℤ) else 0) ≤ (if Q then 1 else 0) := by
  split_ifs with a b
  · exact le_refl 1
  · exact absurd (h a) b
  · norm_num
  · exact le_refl 0

/-- C7: the confidence label is monotonically non-increasing in the set
of triggered penalty conditions (whenever every penalty triggered by
the first input is also triggered by the second, the second label is
not higher in the ordering Low < Medium < High), and the estimator
equals the order-independent form in which all deductions are summed
before the floor at 1 is applied. -/
theorem confidence_monotone_in_penalties :
    (∀ (d₁ d₂ : ℝ) (h₁ h₂ r₁ r₂ c₁ c₂ : ℤ),
      (30 < d₁ → 30 < d₂) →
      (((7 ≤ h₁ ∧ h₁ ≤ 9) ∨ (17 ≤ h₁ ∧ h₁ ≤ 19)) →
        ((7 ≤ h₂ ∧ h₂ ≤ 9) ∨ (17 ≤ h₂ ∧ h₂ ≤ 19))) →
      (r₁ ≠ 0 → r₂ ≠ 0) →
      ((c₁ = 3 ∨ c₁ = 4) → (c₂ = 3 ∨ c₂ = 4)) →
      confidenceRank (get_prediction_confidence d₂ h₂ r₂ c₂) ≤
        confidenceRank (get_prediction_confidence d₁ h₁ r₁ c₁)) ∧
    (∀ (d : ℝ) (h r c : ℤ),
      get_prediction_confidence d h r c =
        scoreLabel (max 1 (3 - penaltyCount d h r c))) := by
  constructor
  · intro d₁ d₂ h₁ h₂ r₁ r₂ c₁ c₂ pd ph pr pc
    rw [confidence_eq_reference d₁ h₁ r₁ c₁, confidence_eq_reference d₂ h₂ r₂ c₂]
    have hmono : penaltyCount d₁ h₁ r₁ c₁ ≤ penaltyCount d₂ h₂ r₂ c₂ := by
      unfold penaltyCount
      exact add_le_add (add_le_add (add_le_add (ite_one_zero_mono pd)
        (ite_one_zero_mono ph)) (ite_one_zero_mono pr)) (ite_one_zero_mono pc)
    have hp1 := penaltyCount_nonneg d₁ h₁ r₁ c₁
    have hp2 := penaltyCount_nonneg d₂ h₂ r₂ c₂
    unfold confidence_reference
    have e1 := rank_scoreLabel (max 1 (3 - penaltyCount d₁ h₁ r₁ c₁))
      (le_max_left _ _) (by omega)
    have e2 := rank_scoreLabel (max 1 (3 - penaltyCount d₂ h₂ r₂ c₂))
      (le_max_left _ _) (by omega)
    omega
  · intro d h r c
    exact confidence_eq_reference d h r c

/-! ### Synthetic trip generator invariants -/

/-- C5: for every sample of the synthetic generator, whatever the
random draws: the recorded distance is at most the category's maximum
(Economy 30, Premium 50, Motorbike 40, Riksha 10, Auto Riksha 20), the
recorded fare is at least the category's base fare (50, 100, 30, 20, 35
respectively), and the recorded ETA is at least 5 minutes. -/
theorem generator_sample_invariants :
    ∀ (dd : ℝ) (h dy r c : ℤ) (nf ne : ℝ),
      5 ≤ (generateSample dd h dy r c nf ne).eta_minutes ∧
      (c = 0 → (generateSample dd h dy r c nf ne).distance_km ≤ 30 ∧
        50 ≤ (generateSample dd h dy r c nf ne).fare_bdt) ∧
      (c = 1 → (generateSample dd h dy r c nf ne).distance_km ≤ 50 ∧
        100 ≤ (generateSample dd h dy r c nf ne).fare_bdt) ∧
      (c = 2 → (generateSample dd h dy r c nf ne).distance_km ≤ 40 ∧
        30 ≤ (generateSample dd h dy r c nf ne).fare_bdt) ∧
      (c = 3 → (generateSample dd h dy r c nf ne).distance_km ≤ 10 ∧
        20 ≤ (generateSample dd h dy r c nf ne).fare_bdt) ∧
      (c = 4 → (generateSample dd h dy r c nf ne).distance_km ≤ 20 ∧
        35 ≤ (generateSample dd h dy r c nf ne).fare_bdt) := by
  intro dd h dy r c nf ne
  refine ⟨le_max_left _ _, ?_, ?_, ?_, ?_, ?_⟩ <;>
    intro hc <;> subst hc <;>
    refine ⟨?_, ?_⟩ <;>
    simp only [generateSample, categoryConstants] <;>
    norm_num

/-- Witness for C5 at concrete draws in the Riksha category. -/
theorem generator_sample_invariants_witness :
    (generateSample 7 12 2 0 3 1 1).distance_km ≤ 10 ∧
      20 ≤ (generateSample 7 12 2 0 3 1 1).fare_bdt :=
  (generator_sample_invariants 7 12 2 0 3 1 1).2.2.2.2.1 rfl

/-! ### Concrete distance bounds for the configured surge zones -/

lemma cos_radians_nonneg {x : ℝ} (h1 : -90 ≤ x) (h2 : x ≤ 90) :
    0 ≤ Real.cos (radians x) := by
  have hπ := Real.pi_pos
  apply Real.cos_nonneg_of_mem_Icc
  unfold radians
  constructor
  · have hx : 0 ≤ x + 90 := by linarith
    nlinarith [mul_nonneg hx hπ.le]
  · have hx : 0 ≤ 90 - x := by linarith
    nlinarith [mul_nonneg hx hπ.le]

lemma quarter_sq_small (lat1 lon1 lat2 lon2 k m : ℝ)
    (hk : lat2 - lat1 = k) (hm : lon2 - lon1 = m)
    (hbound : k ^ 2 + m ^ 2 ≤ 1300) :
    ((radians lat2 - radians lat1) / 2) ^ 2 +
      ((radians lon2 - radians lon1) / 2) ^ 2 < 1 := by
  have e1 : (radians lat2 - radians lat1) / 2 = k * Real.pi / 360 := by
    rw [← hk]
    unfold radians
    ring
  have e2 : (radians lon2 - radians lon1) / 2 = m * Real.pi / 360 := by
    rw [← hm]
    unfold radians
    ring
  rw [e1, e2]
  have hπu : Real.pi < 3.141593 := Real.pi_lt_d6
  have hπp : 0 < Real.pi := Real.pi_pos
  have hsq : Real.pi ^ 2 < 10 := by nlinarith
  nlinarith [sq_nonneg k, sq_nonneg m, sq_nonneg Real.pi,
    mul_nonneg (sub_nonneg.mpr hbound) (sq_nonneg Real.pi)]

lemma haversineA_lt_one_of_small (lat1 lon1 lat2 lon2 : ℝ)
    (h : ((radians lat2 - radians lat1) / 2) ^ 2 +
      ((radians lon2 - radians lon1) / 2) ^ 2 < 1) :
    haversineA lat1 lon1 lat2 lon2 < 1 :=
  lt_of_le_of_lt (haversineA_le_quarter_sq lat1 lon1 lat2 lon2) h

lemma haversine_lower_deg (lat1 lon1 lat2 lon2 k : ℝ)
    (hc : 0 ≤ Real.cos (radians lat1) * Real.cos (radians lat2))
    (hA : haversineA lat1 lon1 lat2 lon2 < 1)
    (hk : lat2 - lat1 = k) (h0 : 0 ≤ k) (h180 : k ≤ 180) :
    12742 * (k / 180) ≤ haversine_distance lat1 lon1 lat2 lon2 := by
  have hθ : (radians lat2 - radians lat1) / 2 = k * Real.pi / 360 := by
    rw [← hk]
    unfold radians
    ring
  have hlow := haversine_lower lat1 lon1 lat2 lon2 hc hA
  rw [hθ] at hlow
  have hπp := Real.pi_pos
  have hθpos : 0 ≤ k * Real.pi / 360 := by positivity
  have hθle : k * Real.pi / 360 ≤ Real.pi / 2 := by nlinarith
  have hj := Real.mul_le_sin hθpos hθle
  have hval : 2 / Real.pi * (k * Real.pi / 360) = k / 180 := by
    field_simp
    ring
  rw [hval] at hj
  have habs := le_trans hj (le_abs_self (Real.sin (k * Real.pi / 360)))
  linarith

lemma dist_c2_c1_gt : 2 < haversine_distance 23.75 90.38 23.78 90.41 := by
  have hc : 0 ≤ Real.cos (radians 23.75) * Real.cos (radians 23.78) :=
    mul_nonneg (cos_radians_nonneg (by norm_num) (by norm_num))
      (cos_radians_nonneg (by norm_num) (by norm_num))
  have hA := haversineA_lt_one_of_small 23.75 90.38 23.78 90.41
    (quarter_sq_small 23.75 90.38 23.78 90.41 0.03 0.03 (by norm_num) (by norm_num)
      (by norm_num))
  have h := haversine_lower_deg 23.75 90.38 23.78 90.41 0.03 hc hA (by norm_num)
    (by norm_num) (by norm_num)
  linarith

lemma dist_c3_c1_gt : 2 < haversine_distance 23.72 90.40 23.78 90.41 := by
  have hc : 0 ≤ Real.cos (radians 23.72) * Real.cos (radians 23.78) :=
    mul_nonneg (cos_radians_nonneg (by norm_num) (by norm_num))
      (cos_radians_nonneg (by norm_num) (by norm_num))
  have hA := haversineA_lt_one_of_small 23.72 90.40 23.78 90.41
    (quarter_sq_small 23.72 90.40 23.78 90.41 0.06 0.01 (by norm_num) (by norm_num)
      (by norm_num))
  have h := haversine_lower_deg 23.72 90.40 23.78 90.41 0.06 hc hA (by norm_num)
    (by norm_num) (by norm_num)
  linarith

lemma dist_c3_c2_gt : 2 < haversine_distance 23.72 90.40 23.75 90.38 := by
  have hc : 0 ≤ Real.cos (radians 23.72) * Real.cos (radians 23.75) :=
    mul_nonneg (cos_radians_nonneg (by norm_num) (by norm_num))
      (cos_radians_nonneg (by norm_num) (by norm_num))
  have hA := haversineA_lt_one_of_small 23.72 90.40 23.75 90.38
    (quarter_sq_small 23.72 90.40 23.75 90.38 0.03 (-0.02) (by norm_num) (by norm_num)
      (by norm_num))
  have h := haversine_lower_deg 23.72 90.40 23.75 90.38 0.03 hc hA (by norm_num)
    (by norm_num) (by norm_num)
  linarith

lemma dist_far_c1_gt : 2 < haversine_distance 0 90.4 23.78 90.41 := by
  have hc : 0 ≤ Real.cos (radians 0) * Real.cos (radians 23.78) :=
    mul_nonneg (cos_radians_nonneg (by norm_num) (by norm_num))
      (cos_radians_nonneg (by norm_num) (by norm_num))
  have hA := haversineA_lt_one_of_small 0 90.4 23.78 90.41
    (quarter_sq_small 0 90.4 23.78 90.41 23.78 0.01 (by norm_num) (by norm_num)
      (by norm_num))
  have h := haversine_lower_deg 0 90.4 23.78 90.41 23.78 hc hA (by norm_num)
    (by norm_num) (by norm_num)
  linarith

lemma dist_far_c2_gt : 2 < haversine_distance 0 90.4 23.75 90.38 := by
  have hc : 0 ≤ Real.cos (radians 0) * Real.cos (radians 23.75) :=
    mul_nonneg (cos_radians_nonneg (by norm_num) (by norm_num))
      (cos_radians_nonneg (by norm_num) (by norm_num))
  have hA := haversineA_lt_one_of_small 0 90.4 23.75 90.38
    (quarter_sq_small 0 90.4 23.75 90.38 23.75 (-0.02) (by norm_num) (by norm_num)
      (by norm_num))
  have h := haversine_lower_deg 0 90.4 23.75 90.38 23.75 hc hA (by norm_num)
    (by norm_num) (by norm_num)
  linarith

lemma dist_far_c3_gt : 2 < haversine_distance 0 90.4 23.72 90.40 := by
  have hc : 0 ≤ Real.cos (radians 0) * Real.cos (radians 23.72) :=
    mul_nonneg (cos_radians_nonneg (by norm_num) (by norm_num))
      (cos_radians_nonneg (by norm_num) (by norm_num))
  have hA := haversineA_lt_one_of_small 0 90.4 23.72 90.40
    (quarter_sq_small 0 90.4 23.72 90.40 23.72 0 (by norm_num) (by norm_num)
      (by norm_num))
  have h := haversine_lower_deg 0 90.4 23.72 90.40 23.72 hc hA (by norm_num)
    (by norm_num) (by norm_num)
  linarith

lemma dist_pickup_c1_le : haversine_distance 23.785 90.415 23.78 90.41 ≤ 2 := by
  have hc : 0 ≤ Real.cos (radians 23.785) * Real.cos (radians 23.78) :=
    mul_nonneg (cos_radians_nonneg (by norm_num) (by norm_num))
      (cos_radians_nonneg (by norm_num) (by norm_num))
  have e1 : (radians 23.78 - radians 23.785) / 2 = -(0.0025 * Real.pi / 180) := by
    unfold radians
    ring
  have e2 : (radians 90.41 - radians 90.415) / 2 = -(0.0025 * Real.pi / 180) := by
    unfold radians
    ring
  have hπu : Real.pi < 3.141593 := Real.pi_lt_d6
  have hπp : 0 < Real.pi := Real.pi_pos
  have hq : ((radians 23.78 - radians 23.785) / 2) ^ 2 +
      ((radians 90.41 - radians 90.415) / 2) ^ 2 = 2 * (0.0025 * Real.pi / 180) ^ 2 := by
    rw [e1, e2]
    ring
  have hq916 : ((radians 23.78 - radians 23.785) / 2) ^ 2 +
      ((radians 90.41 - radians 90.415) / 2) ^ 2 ≤ 9 / 16 := by
    rw [hq]
    nlinarith
  have hup := haversine_upper 23.785 90.415 23.78 90.41 hc hq916
  have hqle : ((radians 23.78 - radians 23.785) / 2) ^ 2 +
      ((radians 90.41 - radians 90.415) / 2) ^ 2 ≤ 0.000062 ^ 2 := by
    rw [hq]
    nlinarith
  have hsq : Real.sqrt (((radians 23.78 - radians 23.785) / 2) ^ 2 +
      ((radians 90.41 - radians 90.415) / 2) ^ 2) ≤ 0.000062 :=
    calc Real.sqrt (((radians 23.78 - radians 23.785) / 2) ^ 2 +
        ((radians 90.41 - radians 90.415) / 2) ^ 2)
        ≤ Real.sqrt (0.000062 ^ 2) := Real.sqrt_le_sqrt hqle
      _ = 0.000062 := Real.sqrt_sq (by norm_num)
  have hsq0 := Real.sqrt_nonneg (((radians 23.78 - radians 23.785) / 2) ^ 2 +
    ((radians 90.41 - radians 90.415) / 2) ^ 2)
  nlinarith [hup, hsq, hsq0]

/-! ### Surge zone resolver -/

lemma surge_radius_eq : SURGE_RADIUS_KM = 2 := by
  unfold SURGE_RADIUS_KM
  norm_num

lemma surge_chain (plat plon : ℝ) :
    get_surge_multiplier plat plon =
      if haversine_distance plat plon 23.78 90.41 ≤ 2 then 1.5
      else if haversine_distance plat plon 23.75 90.38 ≤ 2 then 1.3
      else if haversine_distance plat plon 23.72 90.40 ≤ 2 then 1.8
      else 1 := by
  unfold get_surge_multiplier SURGE_ZONE_CENTERS
  simp only [surgeLoop, surge_radius_eq]
  norm_num

lemma surge_at_c1 : get_surge_multiplier 23.78 90.41 = 1.5 := by
  rw [surge_chain]
  rw [if_pos (by rw [haversine_self]; norm_num)]

lemma surge_at_c2 : get_surge_multiplier 23.75 90.38 = 1.3 := by
  rw [surge_chain]
  rw [if_neg (not_le.mpr dist_c2_c1_gt), if_pos (by rw [haversine_self]; norm_num)]

lemma surge_at_c3 : get_surge_multiplier 23.72 90.40 = 1.8 := by
  rw [surge_chain]
  rw [if_neg (not_le.mpr dist_c3_c1_gt), if_neg (not_le.mpr dist_c3_c2_gt),
    if_pos (by rw [haversine_self]; norm_num)]

lemma surge_far (plat plon : ℝ)
    (h1 : 2 < haversine_distance plat plon 23.78 90.41)
    (h2 : 2 < haversine_distance plat plon 23.75 90.38)
    (h3 : 2 < haversine_distance plat plon 23.72 90.40) :
    get_surge_multiplier plat plon = 1 := by
  rw [surge_chain]
  rw [if_neg (not_le.mpr h1), if_neg (not_le.mpr h2), if_neg (not_le.mpr h3)]

/-- C2: the surge resolver checks the three configured zones in their
fixed order against the 2.0 km radius and returns the first matching
multiplier; at each configured center it returns that zone's
multiplier (1.5, 1.3, 1.8 respectively); and whenever the pickup is
more than 2.0 km from all three centers it returns exactly 1.0. -/
theorem surge_resolver_spec :
    (∀ plat plon : ℝ, get_surge_multiplier plat plon =
      if haversine_distance plat plon 23.78 90.41 ≤ 2 then 1.5
      else if haversine_distance plat plon 23.75 90.38 ≤ 2 then 1.3
      else if haversine_distance plat plon 23.72 90.40 ≤ 2 then 1.8
      else 1) ∧
    get_surge_multiplier 23.78 90.41 = 1.5 ∧
    get_surge_multiplier 23.75 90.38 = 1.3 ∧
    get_surge_multiplier 23.72 90.40 = 1.8 ∧
    (∀ plat plon : ℝ,
      2 < haversine_distance plat plon 23.78 90.41 →
      2 < haversine_distance plat plon 23.75 90.38 →
      2 < haversine_distance plat plon 23.72 90.40 →
      get_surge_multiplier plat plon = 1) :=
  ⟨surge_chain, surge_at_c1, surge_at_c2, surge_at_c3, surge_far⟩

/-- Witness for C2: the pickup `(0, 90.4)` is more than 2 km from all
three centers, and the resolver indeed returns 1.0 there. -/
theorem surge_resolver_spec_witness : get_surge_multiplier 0 90.4 = 1 :=
  surge_resolver_spec.2.2.2.2 0 90.4 dist_far_c1_gt dist_far_c2_gt dist_far_c3_gt

/-- Witness for C7 at concrete inputs: an all-penalties input scores no
higher than a no-penalties input. -/
theorem confidence_monotone_in_penalties_witness :
    confidenceRank (get_prediction_confidence 45 18 1 3) ≤
      confidenceRank (get_prediction_confidence 10 0 0 0) :=
  confidence_monotone_in_penalties.1 10 45 0 18 0 1 0 3
    (by norm_num) (by omega) (by omega) (by omega)

/-! ### The end-to-end Gulshan scenario -/

lemma surge_at_pickup : get_surge_multiplier 23.785 90.415 = 1.5 := by
  rw [surge_chain]
  rw [if_pos dist_pickup_c1_le]

lemma conf_low_of_min20 (x : ℝ) :
    get_prediction_confidence (min x 20) 18 0 4 = "Low" := by
  have hd : ¬(30 < min x 20) :=
    not_lt.mpr (le_trans (min_le_right x 20) (by norm_num))
  simp only [get_prediction_confidence]
  rw [if_neg hd]
  norm_num

/-- C4: for pickup `(23.785, 90.415)`, destination `(23.8200, 90.4220)`,
hour 18, day 4, no rain, category Auto Riksha, pickup name
`"Gulshan 1"`, the prediction (for any trained model pair and any model
cache state) has `surge_applied` true (the pickup is within 2 km of the
1.5x center), confidence `"Low"` (exactly the rush-hour and
Auto Riksha penalties fire), and recommended destination
`"Bashundhara R/A"`. -/
theorem end_to_end_gulshan (fresh : Model × Model) (st : Option Model × Option Model) :
    ∃ r : AdvOut,
      (predict_ride_details_advanced fresh st
        (CoordArg.tup [PyVal.num 23.785, PyVal.num 90.415])
        (CoordArg.tup [PyVal.num 23.8200, PyVal.num 90.4220])
        18 4 0 4 "Gulshan 1").1 = Except.ok (AdvResult.ok r) ∧
      r.surge_applied ∧
      r.prediction_confidence = "Low" ∧
      r.recommended_destination = some "Bashundhara R/A" := by
  refine ⟨predictBody (get_trained_models fresh st).1 23.785 90.415 23.8200 90.4220
    18 4 0 4 "Gulshan 1", rfl, ?_, ?_, ?_⟩
  · show (1.0 : ℝ) < get_surge_multiplier 23.785 90.415
    rw [surge_at_pickup]
    norm_num
  · have hproj : (predictBody (get_trained_models fresh st).1 23.785 90.415 23.8200 90.4220
        18 4 0 4 "Gulshan 1").prediction_confidence =
        get_prediction_confidence
          (min (haversine_distance 23.785 90.415 23.8200 90.4220) 20) 18 0 4 := by
      simp only [predictBody]
      norm_num
    rw [hproj]
    exact conf_low_of_min20 (haversine_distance 23.785 90.415 23.8200 90.4220)
  · show get_recommended_destination "Gulshan 1" = some "Bashundhara R/A"
    rfl

/-! ### Error handling of the prediction entry point -/

/-- A concrete stand-in trained model, used for closed evaluations. -/
def zeroModel : Model := fun _ _ _ _ _ => 0

/-- C1 (amended): every call in which a coordinate argument fails tuple
unpacking (a non-iterable value, or an iterable of length other than
two) returns the structured error dictionary as a value.  (A
two-component coordinate with non-numeric components instead raises an
uncaught `TypeError`; see the counterexample.) -/
theorem invalid_coords_error_dict (fresh : Model × Model) (st : Option Model × Option Model)
    (p d : CoordArg) (hour day rain cat : ℤ) (nm : String)
    (h : (∃ e, unpack2 p = Except.error e) ∨ (∃ e, unpack2 d = Except.error e)) :
    (predict_ride_details_advanced fresh st p d hour day rain cat nm).1 =
      Except.ok (AdvResult.errorDict errMsgInvalidCoords) := by
  cases hp : unpack2 p with
  | error e =>
    simp [predict_ride_details_advanced, hp]
  | ok v =>
    cases hd : unpack2 d with
    | error e =>
      cases v
      simp [predict_ride_details_advanced, hp, hd]
    | ok w =>
      exfalso
      rcases h with ⟨e, he⟩ | ⟨e, he⟩
      · rw [hp] at he
        exact Except.noConfusion he
      · rw [hd] at he
        exact Except.noConfusion he

/-- Witness for the amended C1: a three-element pickup tuple yields the
error dictionary. -/
theorem invalid_coords_error_dict_witness :
    (predict_ride_details_advanced (zeroModel, zeroModel) (none, none)
      (CoordArg.tup [PyVal.num 1, PyVal.num 2, PyVal.num 3])
      (CoordArg.tup [PyVal.num 23.8200, PyVal.num 90.4220]) 18 4 0 4 "x").1 =
      Except.ok (AdvResult.errorDict errMsgInvalidCoords) :=
  invalid_coords_error_dict (zeroModel, zeroModel) (none, none)
    (CoordArg.tup [PyVal.num 1, PyVal.num 2, PyVal.num 3])
    (CoordArg.tup [PyVal.num 23.8200, PyVal.num 90.4220]) 18 4 0 4 "x"
    (Or.inl ⟨PyErr.valueError, rfl⟩)

/-- Counterexample to C1 as stated: a destination that is a two-element
pair of non-numeric components unpacks successfully, and the call then
raises an uncaught `TypeError` (a fatal fault) instead of returning the
error dictionary. -/
theorem invalid_coords_counterexample :
    (predict_ride_details_advanced (zeroModel, zeroModel) (none, none)
      (CoordArg.tup [PyVal.num 23.785, PyVal.num 90.415])
      (CoordArg.tup [PyVal.str "a", PyVal.str "b"]) 18 4 0 4 "Gulshan 1").1 =
      Except.error PyErr.typeError := rfl

/-- C6 (amended): the orchestrator obtains the process-cached model
pair before coordinate validation; on malformed coordinates it still
returns the InvalidInput payload, but the returned cache state is the
post-fetch state: trained (`some`) if the cache was empty, unchanged if
it was already populated. -/
theorem orchestrator_fetch_precedes_validation (fresh : Model × Model)
    (st : Option Model × Option Model) (p d : CoordArg)
    (hour day rain cat : ℤ) (nm : String)
    (h : (∃ e, unpack2 p = Except.error e) ∨ (∃ e, unpack2 d = Except.error e)) :
    predict_ride_details_advanced fresh st p d hour day rain cat nm =
      (Except.ok (AdvResult.errorDict errMsgInvalidCoords), (get_trained_models fresh st).2) ∧
    (get_trained_models fresh (none, none)).2 = (some fresh.1, some fresh.2) ∧
    (∀ f e : Model, (get_trained_models fresh (some f, some e)).2 = (some f, some e)) := by
  refine ⟨?_, rfl, fun f e => rfl⟩
  cases hp : unpack2 p with
  | error e =>
    simp [predict_ride_details_advanced, hp]
  | ok v =>
    cases hd : unpack2 d with
    | error e =>
      cases v
      simp [predict_ride_details_advanced, hp, hd]
    | ok w =>
      exfalso
      rcases h with ⟨e, he⟩ | ⟨e, he⟩
      · rw [hp] at he
        exact Except.noConfusion he
      · rw [hd] at he
        exact Except.noConfusion he

/-- Witness for the amended C6: on a malformed pickup with an empty
cache, the call returns the error payload together with a trained
cache state. -/
theorem orchestrator_fetch_precedes_validation_witness :
    predict_ride_details_advanced (zeroModel, zeroModel) (none, none)
      CoordArg.noneArg (CoordArg.tup [PyVal.num 1, PyVal.num 2]) 0 0 0 0 "x" =
      (Except.ok (AdvResult.errorDict errMsgInvalidCoords),
        (get_trained_models (zeroModel, zeroModel) (none, none)).2) ∧
    (get_trained_models (zeroModel, zeroModel) (none, none)).2 =
      (some zeroModel, some zeroModel) ∧
    (∀ f e : Model,
      (get_trained_models (zeroModel, zeroModel) (some f, some e)).2 = (some f, some e)) := by
  have h := orchestrator_fetch_precedes_validation (zeroModel, zeroModel) (none, none)
    CoordArg.noneArg (CoordArg.tup [PyVal.num 1, PyVal.num 2]) 0 0 0 0 "x"
    (Or.inl ⟨PyErr.typeError, rfl⟩)
  exact ⟨h.1, rfl, h.2.2⟩

/-- Counterexample to C6 as stated: on a malformed pickup coordinate
with an empty model cache, the cached-model state after the call is not
the input state — training has happened before validation. -/
theorem orchestrator_trains_on_invalid_input :
    (predict_ride_details_advanced (zeroModel, zeroModel) (none, none)
      CoordArg.noneArg (CoordArg.tup [PyVal.num 1, PyVal.num 2]) 0 0 0 0 "x").2 ≠
      ((none : Option Model), (none : Option Model)) := by
  have hstate : (predict_ride_details_advanced (zeroModel, zeroModel) (none, none)
      CoordArg.noneArg (CoordArg.tup [PyVal.num 1, PyVal.num 2]) 0 0 0 0 "x").2 =
      (some zeroModel, some zeroModel) := rfl
  rw [hstate]
  intro hc
  exact Option.noConfusion (congrArg Prod.fst hc)

/-! ### Fallbacks and feature impacts -/

/-- C9: a prediction call with numeric coordinates and a ride category
outside 0..4 does not fail: it produces a normal prediction record in
which the distance-clamp lookup fell back to the generic 50 km
maximum. -/
theorem unknown_category_fallback (fresh : Model × Model) (st : Option Model × Option Model)
    (plat plon dlat dlon : ℝ) (hour day rain : ℤ) (cat : ℤ) (nm : String)
    (hcat : cat < 0 ∨ 4 < cat) :
    ∃ r : AdvOut,
      (predict_ride_details_advanced fresh st
        (CoordArg.tup [PyVal.num plat, PyVal.num plon])
        (CoordArg.tup [PyVal.num dlat, PyVal.num dlon]) hour day rain cat nm).1 =
        Except.ok (AdvResult.ok r) ∧
      r.distance_km = min (haversine_distance plat plon dlat dlon) 50 := by
  refine ⟨predictBody (get_trained_models fresh st).1 plat plon dlat dlon hour day rain cat nm,
    rfl, ?_⟩
  have h0 : cat ≠ 0 := by omega
  have h1 : cat ≠ 1 := by omega
  have h2 : cat ≠ 2 := by omega
  have h3 : cat ≠ 3 := by omega
  have h4 : cat ≠ 4 := by omega
  show min (haversine_distance plat plon dlat dlon)
      (if cat = 0 then 30 else if cat = 1 then 50 else if cat = 2 then 40
        else if cat = 3 then 10 else if cat = 4 then 20 else 50) =
    min (haversine_distance plat plon dlat dlon) 50
  rw [if_neg h0, if_neg h1, if_neg h2, if_neg h3, if_neg h4]

/-- Witness for C9 at category code 9. -/
theorem unknown_category_fallback_witness :
    ∃ r : AdvOut,
      (predict_ride_details_advanced (zeroModel, zeroModel) (none, none)
        (CoordArg.tup [PyVal.num 23.785, PyVal.num 90.415])
        (CoordArg.tup [PyVal.num 23.8200, PyVal.num 90.4220]) 10 0 0 9 "x").1 =
        Except.ok (AdvResult.ok r) ∧
      r.distance_km = min (haversine_distance 23.785 90.415 23.8200 90.4220) 50 :=
  unknown_category_fallback (zeroModel, zeroModel) (none, none)
    23.785 90.415 23.8200 90.4220 10 0 0 9 "x" (Or.inr (by norm_num))

lemma min_demand_cases (P Q : Prop) [Decidable P] [Decidable Q] :
    min (if Q then (if P then (5 : ℤ) + 10 else 5) + 15 else (if P then (5 : ℤ) + 10 else 5))
      40 = 5 ∨
    min (if Q then (if P then (5 : ℤ) + 10 else 5) + 15 else (if P then (5 : ℤ) + 10 else 5))
      40 = 15 ∨
    min (if Q then (if P then (5 : ℤ) + 10 else 5) + 15 else (if P then (5 : ℤ) + 10 else 5))
      40 = 20 ∨
    min (if Q then (if P then (5 : ℤ) + 10 else 5) + 15 else (if P then (5 : ℤ) + 10 else 5))
      40 = 30 := by
  by_cases hP : P <;> by_cases hQ : Q <;> simp [hP, hQ]

/-- C10: in every prediction record produced from numeric coordinates,
the `demand_level` and `location_situation` feature impacts are equal,
take only the values 5, 15, 20 or 30 (so the 40 cap is never reached),
and the `distance` impact is always exactly 38. -/
theorem feature_impacts_invariant (fresh : Model × Model) (st : Option Model × Option Model)
    (plat plon dlat dlon : ℝ) (hour day rain cat : ℤ) (nm : String) :
    ∃ r : AdvOut,
      (predict_ride_details_advanced fresh st
        (CoordArg.tup [PyVal.num plat, PyVal.num plon])
        (CoordArg.tup [PyVal.num dlat, PyVal.num dlon]) hour day rain cat nm).1 =
        Except.ok (AdvResult.ok r) ∧
      r.feature_impacts.demand_level = r.feature_impacts.location_situation ∧
      (r.feature_impacts.demand_level = 5 ∨ r.feature_impacts.demand_level = 15 ∨
       r.feature_impacts.demand_level = 20 ∨ r.feature_impacts.demand_level = 30) ∧
      r.feature_impacts.distance = 38 := by
  refine ⟨predictBody (get_trained_models fresh st).1 plat plon dlat dlon hour day rain cat nm,
    rfl, rfl, ?_, rfl⟩
  exact min_demand_cases (rain ≠ 0) ((1.0 : ℝ) < get_surge_multiplier plat plon)
